import Mathlib

/-!
Verification development for the xo-args command-line argument parser
(single-header C library, src/xo-args.h). The C functions relevant to the
claims are shallowly embedded below with their source names where Lean
permits. C strings are modelled as lists of characters (no interior NUL);
the context's print function is modelled as an accumulated list of output
events, one event per print call site, with the body of the generated help
text abstracted to a single event (its exact rendering is not the subject
of any claim). Machine integers are modelled as Int with the explicit
64-bit range check that the C performs via strtoll/errno. The two
floating-point branches of the parser (XO_ARGS_TYPE_DOUBLE and
XO_ARGS_TYPE_DOUBLE_ARRAY, lines 1282-1341 and 1477-1545 of the source)
are not modelled: floating point does not embed faithfully, and no theorem
below constructs an argument carrying either bit.
-/

namespace XoArgs

/-- C strings (NUL terminator left implicit). -/
abbrev Str := List Char

/-- Convert a Lean string literal to the model's string type. -/
def str (s : String) : Str := s.data

/-! Bit flags from the XO_ARGS_ARG_FLAG enum (src/xo-args.h lines 130-145). -/

def XO_ARGS_TYPE_STRING : Nat := 1

def XO_ARGS_TYPE_SWITCH : Nat := 2

def XO_ARGS_TYPE_BOOL : Nat := 4

def XO_ARGS_TYPE_INT : Nat := 8

def XO_ARGS_TYPE_DOUBLE : Nat := 16

def XO_ARGS_TYPE_STRING_ARRAY : Nat := 32

def XO_ARGS_TYPE_BOOL_ARRAY : Nat := 64

def XO_ARGS_TYPE_INT_ARRAY : Nat := 128

def XO_ARGS_TYPE_DOUBLE_ARRAY : Nat := 256

def XO_ARGS_ARG_REQUIRED : Nat := 512

/-- The mask of all nine type bits (xo-args.h lines 1796-1801). -/
def allTypes : Nat :=
  XO_ARGS_TYPE_STRING ||| XO_ARGS_TYPE_SWITCH ||| XO_ARGS_TYPE_BOOL |||
  XO_ARGS_TYPE_INT ||| XO_ARGS_TYPE_DOUBLE ||| XO_ARGS_TYPE_BOOL_ARRAY |||
  XO_ARGS_TYPE_INT_ARRAY ||| XO_ARGS_TYPE_DOUBLE_ARRAY |||
  XO_ARGS_TYPE_STRING_ARRAY

/-- xo-args.h lines 382-387: test for any of the four array type bits. -/
def _xo_args_arg_flag_is_array (flags : Nat) : Bool :=
  flags &&& (XO_ARGS_TYPE_STRING_ARRAY ||| XO_ARGS_TYPE_INT_ARRAY |||
             XO_ARGS_TYPE_DOUBLE_ARRAY ||| XO_ARGS_TYPE_BOOL_ARRAY) ≠ 0

/-- xo-args.h lines 654-658: the parser's character class, ASCII letters,
digits and the hyphen. -/
def _xo_isalnum (c : Char) : Bool :=
  ('A' ≤ c && c ≤ 'Z') || ('a' ≤ c && c ≤ 'z') ||
  ('0' ≤ c && c ≤ '9') || (c = '-')

/-- xo-args.h lines 661-674. The C walks curr from start while curr differs
from last, where last points at the final character (end minus one): so it
validates the characters at positions 0 .. len-2 and never the final one.
For the empty string the loop dereferences the NUL terminator, which is not
in the class, so the empty string yields false. -/
def _xo_isalnum_str (s : Str) : Bool :=
  match s with
  | [] => false
  | _ => (s.take (s.length - 1)).all _xo_isalnum

/-- C isspace over the standard space characters. -/
def isSpaceC (c : Char) : Bool :=
  c = ' ' || c = '\t' || c = '\n' || c = '\x0b' || c = '\x0c' || c = '\r'

def isDigitDec (c : Char) : Bool := '0' ≤ c && c ≤ '9'

def isDigitOct (c : Char) : Bool := '0' ≤ c && c ≤ '7'

def isDigitHex (c : Char) : Bool :=
  isDigitDec c || ('a' ≤ c && c ≤ 'f') || ('A' ≤ c && c ≤ 'F')

/-- Numeric value of a decimal or hexadecimal digit character. -/
def digitVal (c : Char) : Nat :=
  if isDigitDec c then c.toNat - '0'.toNat
  else if 'a' ≤ c && c ≤ 'f' then c.toNat - 'a'.toNat + 10
  else c.toNat - 'A'.toNat + 10

/-- Accumulate a digit string in the given base. -/
def digitsVal (base : Nat) (ds : Str) : Nat :=
  ds.foldl (fun acc c => acc * base + digitVal c) 0

def INT64_MAX : Int := 9223372036854775807

def INT64_MIN : Int := -9223372036854775808

/-- The 64-bit signed range check that the C obtains from strtoll setting
errno to ERANGE on overflow (long long is 64 bits wide on the supported
targets, so the extra cast comparison in the C is vacuous). -/
def mkInt64 (neg : Bool) (m : Nat) : Option Int :=
  let v : Int := if neg then -(m : Int) else (m : Int)
  if INT64_MIN ≤ v ∧ v ≤ INT64_MAX then some v else none

/-- strtoll with base 0 applied to a whole token, combined with the
wrapper's requirement that conversion consumed the entire token
(end_ptr at the terminator and distinct from the input): optional single
sign, then either a 0x/0X hexadecimal literal, a 0-prefixed octal literal,
or a decimal literal, every remaining character a digit of that base. A
bare "0x" with no hexadecimal digit converts only the leading zero in C and
therefore leaves trailing input, which the wrapper rejects. -/
def strtollFull (s : Str) : Option Int :=
  let signed : Bool × Str :=
    match s with
    | '-' :: r => (true, r)
    | '+' :: r => (false, r)
    | _ => (false, s)
  match signed.2 with
  | '0' :: x :: rest =>
    if x = 'x' || x = 'X' then
      if rest ≠ [] ∧ rest.all isDigitHex then
        mkInt64 signed.1 (digitsVal 16 rest)
      else none
    else
      if (x :: rest).all isDigitOct then
        mkInt64 signed.1 (digitsVal 8 (x :: rest))
      else none
  | ['0'] => mkInt64 signed.1 0
  | other =>
    if other ≠ [] ∧ other.all isDigitDec then
      mkInt64 signed.1 (digitsVal 10 other)
    else none

/-- xo-args.h lines 1033-1056: reject empty input and leading whitespace,
then require strtoll (base 0) to consume the whole token within the 64-bit
signed range. -/
def _xo_args_try_parse_int (s : Str) : Option Int :=
  match s with
  | [] => none
  | c :: _ => if isSpaceC c then none else strtollFull s

/-- xo-args.h lines 1059-1077: the fixed literal sets for booleans. -/
def _xo_args_try_parse_bool (s : Str) : Option Bool :=
  if s = str "0" ∨ s = str "false" ∨ s = str "False" ∨ s = str "FALSE" then
    some false
  else if s = str "1" ∨ s = str "true" ∨ s = str "True" ∨ s = str "TRUE" then
    some true
  else none

/-! The argument record (struct xo_args_arg, lines 306-347). The value_tip
and description fields only feed the help renderer, whose body is
abstracted, so they are omitted. The scalar union and the array storage are
merged into one value field. -/

inductive ArgValue where
  | vNone
  | vString (s : Str)
  | vBool (b : Bool)
  | vInt (i : Int)
  | vStrArr (xs : List Str)
  | vIntArr (xs : List Int)
  | vBoolArr (xs : List Bool)
deriving DecidableEq

structure Arg where
  name : Str
  shortName : Option Str
  flags : Nat
  hasValue : Bool
  value : ArgValue
deriving DecidableEq

instance : Inhabited Arg := ⟨⟨[], none, 0, false, ArgValue.vNone⟩⟩

/-- xo-args.h lines 390-396. -/
inductive MatchType where
  | mtName
  | mtAssignName
  | mtShortName
  | mtAssignShortName
deriving DecidableEq

/-- xo-args.h lines 408-473: match one raw token against one declared
argument. The long-name branch is entered when the token has length above
two, a second hyphen, and the argument name as the strncmp prefix of the
remainder; inside that branch a failed length/assignment test returns no
match without falling through to the short-name branch, exactly as the C
returns false there. -/
def _xo_args_arg_matches_input (a : Arg) (s : Str) : Option MatchType :=
  if s = [] then none
  else if s.headD ' ' ≠ '-' then none
  else if 2 < s.length ∧ (s.drop 1).headD ' ' = '-' ∧
          (s.drop 2).take a.name.length = a.name then
    if s.length - 2 = a.name.length then some MatchType.mtName
    else if (s.drop 2).getD a.name.length ' ' = '=' then
      some MatchType.mtAssignName
    else none
  else
    match a.shortName with
    | none => none
    | some sn =>
      if (s.drop 1).take sn.length = sn then
        if s.length - 1 = sn.length then some MatchType.mtShortName
        else if (s.drop 1).getD sn.length ' ' = '=' then
          some MatchType.mtAssignShortName
        else none
      else none

/-! Output events. Every call the implementation makes to the context's
print function is modelled as one event, except the body of the generated
help text after its banner line, which is abstracted into the single event
helpBody (no claim concerns its rendering). -/

inductive Diag where
  | errUnknownArgument (tok : Str)
  | errMultiple (tok : Str)
  | errNoValue (tok : Str)
  | errInvalidBool (tok : Str)
  | errInvalidInt (tok : Str)
  | errRequired (name : Str) (shortName : Option Str)
  | declConflict (nm : Str)
  | declConflictShort (nm : Str)
  | tryHelp
  | versionLine
  | nameLine
  | helpBody
deriving DecidableEq

/-- The parsing context (struct xo_args_ctx, lines 350-379), restricted to
the fields the claims observe: the token vector, the optional version
string, the ordered argument registry and the accumulated output. -/
structure Ctx where
  argv : List Str
  appVersion : Option Str
  args : List Arg
  out : List Diag
deriving DecidableEq

/-- Does the token match any argument of the registry (the inner loop of
the array slurp, e.g. lines 1390-1399, which passes NULL for the match
record and only uses existence)? -/
def matchesAny (args : List Arg) (t : Str) : Bool :=
  args.any (fun a => (_xo_args_arg_matches_input a t).isSome)

/-- The string-array slurp loop (lines 1385-1406): consume tokens as
elements until one matches a declared argument or the stream ends. -/
def slurpStr (args : List Arg) : List Str → List Str
  | [] => []
  | t :: rest =>
    if matchesAny args t then []
    else t :: slurpStr args rest

/-- The int-array slurp loop (lines 1441-1473): stop cleanly at a token
that matches a declared argument or at the end of the stream; a
non-matching token that fails the integer grammar stops the loop with the
error flag, keeping the elements already pushed. Returns the consumed
elements and whether the loop ended without a grammar error. -/
def slurpInt (args : List Arg) : List Str → List Int × Bool
  | [] => ([], true)
  | t :: rest =>
    if matchesAny args t then ([], true)
    else
      match _xo_args_try_parse_int t with
      | some v =>
        let p := slurpInt args rest
        (v :: p.1, p.2)
      | none => ([], false)

/-- The bool-array slurp loop (lines 1575-1604), same shape as slurpInt. -/
def slurpBool (args : List Arg) : List Str → List Bool × Bool
  | [] => ([], true)
  | t :: rest =>
    if matchesAny args t then ([], true)
    else
      match _xo_args_try_parse_bool t with
      | some v =>
        let p := slurpBool args rest
        (v :: p.1, p.2)
      | none => ([], false)

/-- Matched name length for a match record (the matched_name_length field
set at lines 428, 438, 454, 465). -/
def matchedNameLength (a : Arg) (m : MatchType) : Nat :=
  match m with
  | MatchType.mtName | MatchType.mtAssignName => a.name.length
  | MatchType.mtShortName | MatchType.mtAssignShortName =>
    (a.shortName.getD []).length

def isAssignMatch (m : MatchType) : Bool :=
  m = MatchType.mtAssignName || m = MatchType.mtAssignShortName

/-- The offset, from the start of the token, of the inline value after the
assignment operator: 3 for two hyphens plus the equals sign in a name
assignment, 2 in a short-name assignment (e.g. lines 1132-1135). -/
def assignOffset (a : Arg) (m : MatchType) : Nat :=
  (if m = MatchType.mtAssignName then 3 else 2) + matchedNameLength a m

/-- Existing elements of a string-array value (the C pushes onto the
argument's growable array). -/
def getStrArr (v : ArgValue) : List Str :=
  match v with
  | ArgValue.vStrArr xs => xs
  | _ => []

def getIntArr (v : ArgValue) : List Int :=
  match v with
  | ArgValue.vIntArr xs => xs
  | _ => []

def getBoolArr (v : ArgValue) : List Bool :=
  match v with
  | ArgValue.vBoolArr xs => xs
  | _ => []

/-- Result of one _xo_args_try_parse_arg call: the C returns a bool,
mutates the argument in place, advances *argv_index by adv tokens, and
prints diagnostics on failure. -/
structure ParseOut where
  ok : Bool
  arg : Arg
  adv : Nat
  diags : List Diag
deriving DecidableEq

/-- xo-args.h lines 1107-1609: consume the value(s) of one matched
argument. The duplicate check (lines 1113-1122) precedes the dispatch on
the type bits, which the C tests in source order; the two floating-point
branches are not modelled (no theorem constructs an argument with a double
bit). The trailing catch-all mirrors the final return true at line 1608. -/
def _xo_args_try_parse_arg (args : List Arg) (argv : List Str) (i : Nat)
    (a : Arg) (m : MatchType) : ParseOut :=
  let tok := argv.getD i []
  if a.hasValue && !_xo_args_arg_flag_is_array a.flags then
    ⟨false, a, 0, [Diag.errMultiple tok]⟩
  else if a.flags &&& XO_ARGS_TYPE_STRING ≠ 0 then
    if isAssignMatch m then
      let a1 : Arg := { a with hasValue := true, value := ArgValue.vString (tok.drop (assignOffset a m)) }
      ⟨true, a1, 0, []⟩
    else if i + 1 ≥ argv.length then ⟨false, a, 0, [Diag.errNoValue tok]⟩
    else
      let a1 : Arg := { a with hasValue := true, value := ArgValue.vString (argv.getD (i + 1) []) }
      ⟨true, a1, 1, []⟩
  else if a.flags &&& XO_ARGS_TYPE_SWITCH ≠ 0 then
    ⟨true, { a with hasValue := true }, 0, []⟩
  else if a.flags &&& XO_ARGS_TYPE_BOOL ≠ 0 then
    if isAssignMatch m then
      match _xo_args_try_parse_bool (tok.drop (assignOffset a m)) with
      | some b => ⟨true, { a with hasValue := true, value := ArgValue.vBool b }, 0, []⟩
      | none => ⟨false, a, 0, [Diag.errInvalidBool tok]⟩
    else if i + 1 ≥ argv.length then ⟨false, a, 0, [Diag.errNoValue tok]⟩
    else
      match _xo_args_try_parse_bool (argv.getD (i + 1) []) with
      | some b => ⟨true, { a with hasValue := true, value := ArgValue.vBool b }, 1, []⟩
      | none => ⟨false, a, 0, [Diag.errInvalidBool tok]⟩
  else if a.flags &&& XO_ARGS_TYPE_INT ≠ 0 then
    if isAssignMatch m then
      match _xo_args_try_parse_int (tok.drop (assignOffset a m)) with
      | some v => ⟨true, { a with hasValue := true, value := ArgValue.vInt v }, 0, []⟩
      | none => ⟨false, a, 0, [Diag.errInvalidInt (tok.take (assignOffset a m - 1))]⟩
    else if i + 1 ≥ argv.length then ⟨false, a, 0, [Diag.errNoValue tok]⟩
    else
      match _xo_args_try_parse_int (argv.getD (i + 1) []) with
      | some v => ⟨true, { a with hasValue := true, value := ArgValue.vInt v }, 1, []⟩
      | none => ⟨false, a, 0, [Diag.errInvalidInt tok]⟩
  else if a.flags &&& XO_ARGS_TYPE_STRING_ARRAY ≠ 0 then
    if i + 1 ≥ argv.length then ⟨false, a, 0, [Diag.errNoValue tok]⟩
    else
      let first := argv.getD (i + 1) []
      let xs := slurpStr args (argv.drop (i + 2))
      let a1 : Arg := { a with hasValue := true, value := ArgValue.vStrArr (getStrArr a.value ++ first :: xs) }
      ⟨true, a1, 1 + xs.length, []⟩
  else if a.flags &&& XO_ARGS_TYPE_INT_ARRAY ≠ 0 then
    if i + 1 ≥ argv.length then ⟨false, a, 0, [Diag.errNoValue tok]⟩
    else
      match _xo_args_try_parse_int (argv.getD (i + 1) []) with
      | none => ⟨false, a, 0, [Diag.errInvalidInt tok]⟩
      | some v =>
        let p := slurpInt args (argv.drop (i + 2))
        let a1 : Arg := { a with hasValue := true, value := ArgValue.vIntArr (getIntArr a.value ++ v :: p.1) }
        if p.2 then ⟨true, a1, 1 + p.1.length, []⟩
        else ⟨false, a1, 1 + p.1.length, [Diag.errInvalidInt tok]⟩
  else if a.flags &&& XO_ARGS_TYPE_BOOL_ARRAY ≠ 0 then
    if i + 1 ≥ argv.length then ⟨false, a, 0, [Diag.errNoValue tok]⟩
    else
      match _xo_args_try_parse_bool (argv.getD (i + 1) []) with
      | none => ⟨false, a, 0, [Diag.errInvalidBool tok]⟩
      | some v =>
        let p := slurpBool args (argv.drop (i + 2))
        let a1 : Arg := { a with hasValue := true, value := ArgValue.vBoolArr (getBoolArr a.value ++ v :: p.1) }
        if p.2 then ⟨true, a1, 1 + p.1.length, []⟩
        else ⟨false, a1, 1 + p.1.length, [Diag.errInvalidBool tok]⟩
  else ⟨true, a, 0, []⟩

/-- The subtract-one-and-mask bit-count loop the C uses at lines
1808-1813, written with explicit fuel so it stays structurally recursive;
each iteration clears the lowest set bit, so fuel equal to the input
always suffices. -/
def popcountFuel : Nat → Nat → Nat
  | 0, _ => 0
  | fuel + 1, n => if n = 0 then 0 else 1 + popcountFuel fuel (n &&& (n - 1))

/-- Count of set bits (lines 1808-1813). -/
def popcount (n : Nat) : Nat := popcountFuel n n

/-- Both short names present and equal (the C guards with two null checks
before the strcmp at lines 1836-1838). -/
def shortNamesClash (sn1 sn2 : Option Str) : Bool :=
  match sn1, sn2 with
  | some x, some y => x = y
  | _, _ => false

/-- The first name or short-name conflict with an existing argument, in
registry order, checking the name before the short name for each existing
argument, as the loop at lines 1824-1846 does. -/
def findConflict (args : List Arg) (name : Str) (shortName : Option Str) :
    Option Diag :=
  match args with
  | [] => none
  | e :: rest =>
    if e.name = name then some (Diag.declConflict name)
    else if shortNamesClash shortName e.shortName then
      some (Diag.declConflictShort (shortName.getD []))
    else findConflict rest name shortName

/-- Initial value slot for a fresh argument: arrays start empty (the C
allocates the array on first push; array_size starts at 0), scalars start
unset. flags here are the final stored flags. -/
def initialValue (flags : Nat) : ArgValue :=
  if flags &&& XO_ARGS_TYPE_STRING_ARRAY ≠ 0 then ArgValue.vStrArr []
  else if flags &&& XO_ARGS_TYPE_INT_ARRAY ≠ 0 then ArgValue.vIntArr []
  else if flags &&& XO_ARGS_TYPE_BOOL_ARRAY ≠ 0 then ArgValue.vBoolArr []
  else ArgValue.vNone

/-- xo-args.h lines 1748-1990 (release semantics: the debug assertions
return no sentinel beyond what the code already returns). Validation in
source order: the name must pass _xo_isalnum_str; a short name of nonzero
length must pass it too (a zero-length short name skips the check, line
1784); at most one type bit may be set; no name or short-name conflict
with an existing argument. On success the argument is appended with the
type defaulted to string when no type bit is given (lines 1883-1885) and
the required bit cleared for switches (lines 1889-1893). The returned
handle is modelled as the argument's index in the registry. -/
def xo_args_declare_arg (ctx : Ctx) (name : Str) (shortName : Option Str)
    (flags : Nat) : Option Nat × Ctx :=
  if !_xo_isalnum_str name then (none, ctx)
  else if shortName.elim false (fun sn => sn.length > 0 && !_xo_isalnum_str sn) then (none, ctx)
  else if popcount (flags &&& allTypes) > 1 then (none, ctx)
  else
    match findConflict ctx.args name shortName with
    | some d => (none, { ctx with out := ctx.out ++ [d] })
    | none =>
      let flags1 := if flags &&& allTypes ≠ 0 then flags
                    else flags ||| XO_ARGS_TYPE_STRING
      let flags2 :=
        if flags &&& (XO_ARGS_TYPE_SWITCH ||| XO_ARGS_ARG_REQUIRED) =
           XO_ARGS_TYPE_SWITCH ||| XO_ARGS_ARG_REQUIRED then
          flags1 - XO_ARGS_ARG_REQUIRED
        else flags1
      let a : Arg := { name := name, shortName := shortName, flags := flags2,
                       hasValue := false, value := initialValue flags2 }
      (some ctx.args.length, { ctx with args := ctx.args ++ [a] })

/-- First declared argument matching the token, with its registry index
(the loop at lines 1657-1673). -/
def findMatchAux (args : List Arg) (tok : Str) (j : Nat) :
    Option (Nat × MatchType) :=
  match args with
  | [] => none
  | a :: rest =>
    match _xo_args_arg_matches_input a tok with
    | some m => some (j, m)
    | none => findMatchAux rest tok (j + 1)

inductive ScanResult where
  | ok (ctx : Ctx)
  | err (ctx : Ctx)
deriving DecidableEq

/-- The scan loop of xo_args_submit (lines 1634-1687): tokens are consumed
left to right from index 1; an empty token is skipped; a token of length
one or without a leading hyphen, or a flag-shaped token matching no
declared argument, is an unknown-argument failure; a matched token is
consumed by _xo_args_try_parse_arg, which advances the index past the
value tokens it consumed. The loop index strictly increases each
iteration, so fuel equal to the length of argv always suffices; submit
supplies exactly that. -/
def scanLoop (fuel : Nat) (ctx : Ctx) (i : Nat) : ScanResult :=
  match fuel with
  | 0 => ScanResult.ok ctx
  | fuel1 + 1 =>
    if i < ctx.argv.length then
      let tok := ctx.argv.getD i []
      if tok.length = 0 then scanLoop fuel1 ctx (i + 1)
      else if tok.length = 1 || tok.headD ' ' ≠ '-' then
        ScanResult.err
          { ctx with out := ctx.out ++ [Diag.errUnknownArgument tok, Diag.tryHelp] }
      else
        match findMatchAux ctx.args tok 0 with
        | some jm =>
          let a := ctx.args.getD jm.1 default
          let r := _xo_args_try_parse_arg ctx.args ctx.argv i a jm.2
          let ctx1 : Ctx :=
            { ctx with args := ctx.args.set jm.1 r.arg,
                       out := ctx.out ++ r.diags }
          if r.ok then scanLoop fuel1 ctx1 (i + r.adv + 1)
          else ScanResult.err { ctx1 with out := ctx1.out ++ [Diag.tryHelp] }
        | none =>
          ScanResult.err
            { ctx with out := ctx.out ++ [Diag.errUnknownArgument tok, Diag.tryHelp] }
    else ScanResult.ok ctx

/-- xo-args.h lines 1993-2018 against the model's value slot. The C
returns false for a null argument or a wrong type bit (after a debug
assertion) and writes the output parameter only when a value is present;
the model returns none in exactly those cases. -/
def xo_args_try_get_string (a? : Option Arg) : Option Str :=
  match a? with
  | none => none
  | some a =>
    if a.flags &&& XO_ARGS_TYPE_STRING = 0 then none
    else if a.hasValue then
      some (match a.value with
            | ArgValue.vString s => s
            | _ => [])
    else none

/-- xo-args.h lines 2075-2111: booleans require a stored value; a switch
always reports found, its value being exactly has_value (lines 2107-2110). -/
def xo_args_try_get_bool (a? : Option Arg) : Option Bool :=
  match a? with
  | none => none
  | some a =>
    let type_is_bool := a.flags &&& XO_ARGS_TYPE_BOOL ≠ 0
    let type_is_switch := a.flags &&& XO_ARGS_TYPE_SWITCH ≠ 0
    if !type_is_bool && !type_is_switch then none
    else if type_is_bool then
      if a.hasValue then
        some (match a.value with
              | ArgValue.vBool b => b
              | _ => false)
      else none
    else some a.hasValue

/-- xo-args.h lines 2021-2045. -/
def xo_args_try_get_int (a? : Option Arg) : Option Int :=
  match a? with
  | none => none
  | some a =>
    if a.flags &&& XO_ARGS_TYPE_INT = 0 then none
    else if a.hasValue then
      some (match a.value with
            | ArgValue.vInt v => v
            | _ => 0)
    else none

/-- xo-args.h lines 2114-2146. -/
def xo_args_try_get_string_array (a? : Option Arg) : Option (List Str) :=
  match a? with
  | none => none
  | some a =>
    if a.flags &&& XO_ARGS_TYPE_STRING_ARRAY = 0 then none
    else if a.hasValue then some (getStrArr a.value)
    else none

/-- xo-args.h lines 2149-2181. -/
def xo_args_try_get_int_array (a? : Option Arg) : Option (List Int) :=
  match a? with
  | none => none
  | some a =>
    if a.flags &&& XO_ARGS_TYPE_INT_ARRAY = 0 then none
    else if a.hasValue then some (getIntArr a.value)
    else none

/-- The output of xo_args_print_help (lines 759-870): the banner line,
which is the app name with the version string when one was supplied (lines
761-769), followed by the abstracted body. -/
def printHelpOut (ctx : Ctx) : List Diag :=
  (match ctx.appVersion with
   | some _ => [Diag.versionLine]
   | none => [Diag.nameLine]) ++ [Diag.helpBody]

/-- The output of xo_args_print_version (lines 873-886): the version line
when a version string was supplied, nothing otherwise. -/
def printVersionOut (ctx : Ctx) : List Diag :=
  match ctx.appVersion with
  | some _ => [Diag.versionLine]
  | none => []

/-- Look an argument handle up in the registry. -/
def argAt (ctx : Ctx) (idx : Option Nat) : Option Arg :=
  idx.bind (fun j => ctx.args.get? j)

/-- First required argument without a value, in registry order (the loop
at lines 1704-1723). -/
def firstMissingRequired (args : List Arg) : Option Arg :=
  args.find? (fun a => a.flags &&& XO_ARGS_ARG_REQUIRED ≠ 0 && !a.hasValue)

/-- The tail of xo_args_submit after the scan completed without error
(lines 1689-1725): the help switch is consulted first, then the version
switch (only when a version string exists), each short-circuiting with the
output of xo_args_print_help — the source calls xo_args_print_help on the
version path too, at line 1700 — and finally the required-argument loop. -/
def submitFinish (ctx : Ctx) (helpIdx versionIdx : Option Nat) : Bool × Ctx :=
  if xo_args_try_get_bool (argAt ctx helpIdx) = some true then
    (false, { ctx with out := ctx.out ++ printHelpOut ctx })
  else if ctx.appVersion.isSome ∧
          xo_args_try_get_bool (argAt ctx versionIdx) = some true then
    (false, { ctx with out := ctx.out ++ printHelpOut ctx })
  else
    match firstMissingRequired ctx.args with
    | some a =>
      (false, { ctx with out :=
          ctx.out ++ [Diag.errRequired a.name a.shortName, Diag.tryHelp] })
    | none => (true, ctx)

/-- xo-args.h lines 1620-1632: submit first declares the implicit help
switch and, when a version string was supplied, the implicit version
switch. Returns the two handles and the grown context. -/
def declareImplicits (ctx : Ctx) : Option Nat × Option Nat × Ctx :=
  let h := xo_args_declare_arg ctx (str "help") (some (str "h"))
    XO_ARGS_TYPE_SWITCH
  match h.2.appVersion with
  | some _ =>
    let v := xo_args_declare_arg h.2 (str "version") (some (str "v"))
      XO_ARGS_TYPE_SWITCH
    (h.1, v.1, v.2)
  | none => (h.1, none, h.2)

/-- xo-args.h lines 1612-1726: declare the implicit arguments, scan the
token vector, then run the post-scan checks. -/
def xo_args_submit (ctx : Ctx) : Bool × Ctx :=
  let d := declareImplicits ctx
  match scanLoop d.2.2.argv.length d.2.2 1 with
  | ScanResult.err ctx1 => (false, ctx1)
  | ScanResult.ok ctx1 => submitFinish ctx1 d.1 d.2.1

/-- A fresh context over a token vector, as xo_args_create_ctx_advanced
builds one (allocator plumbing and app-name derivation omitted; no claim
observes them). -/
def mkCtx (argv : List Str) (version : Option Str) : Ctx :=
  { argv := argv, appVersion := version, args := [], out := [] }

/-- The flag words xo_args_declare_arg can store for a string-array
argument: the type bit, optionally with the required bit. -/
def stringArrayFlagged (a : Arg) : Prop :=
  a.flags = XO_ARGS_TYPE_STRING_ARRAY ∨
  a.flags = XO_ARGS_TYPE_STRING_ARRAY ||| XO_ARGS_ARG_REQUIRED

/-- The flag words xo_args_declare_arg can store for an int-array
argument. -/
def intArrayFlagged (a : Arg) : Prop :=
  a.flags = XO_ARGS_TYPE_INT_ARRAY ∨
  a.flags = XO_ARGS_TYPE_INT_ARRAY ||| XO_ARGS_ARG_REQUIRED

/-- The flag words xo_args_declare_arg can store for a bool-array
argument. -/
def boolArrayFlagged (a : Arg) : Prop :=
  a.flags = XO_ARGS_TYPE_BOOL_ARRAY ∨
  a.flags = XO_ARGS_TYPE_BOOL_ARRAY ||| XO_ARGS_ARG_REQUIRED

/-- Any of the modelled array flag words. -/
def anyArrayFlagged (a : Arg) : Prop :=
  stringArrayFlagged a ∨ intArrayFlagged a ∨ boolArrayFlagged a

/-- The single flag word xo_args_declare_arg can store for a switch: the
required bit is always cleared for switches (lines 1889-1893). -/
def switchFlagged (a : Arg) : Prop :=
  a.flags = XO_ARGS_TYPE_SWITCH

/-- The slurp-boundary predicate: tokens an array consumes after its first
element are exactly those that match no declared argument. -/
def noFlagTok (args : List Arg) (t : Str) : Bool :=
  !matchesAny args t

/-! Concrete fixtures used to instantiate universally quantified
theorems in their witnesses. -/

/-- A declared string-array argument named foo. -/
def fooStrArrFix : Arg :=
  { name := str "foo", shortName := none,
    flags := XO_ARGS_TYPE_STRING_ARRAY, hasValue := false,
    value := ArgValue.vStrArr [] }

/-- A declared int-array argument named foo. -/
def fooIntArrFix : Arg :=
  { name := str "foo", shortName := none,
    flags := XO_ARGS_TYPE_INT_ARRAY, hasValue := false,
    value := ArgValue.vIntArr [] }

/-- A declared switch argument named foo. -/
def fooSwitchFix : Arg :=
  { name := str "foo", shortName := none,
    flags := XO_ARGS_TYPE_SWITCH, hasValue := false,
    value := ArgValue.vNone }

/-- A declared string argument named foo that has already received a
value. -/
def fooStringSetFix : Arg :=
  { name := str "foo", shortName := none,
    flags := XO_ARGS_TYPE_STRING, hasValue := true,
    value := ArgValue.vString (str "a") }

/-- The implicit help switch as xo_args_submit declares it. -/
def helpArgFix : Arg :=
  { name := str "help", shortName := some (str "h"),
    flags := XO_ARGS_TYPE_SWITCH, hasValue := false,
    value := ArgValue.vNone }

/-- A declared required string argument named foo with no value yet. -/
def fooReqFix : Arg :=
  { name := str "foo", shortName := none,
    flags := XO_ARGS_TYPE_STRING ||| XO_ARGS_ARG_REQUIRED,
    hasValue := false, value := ArgValue.vNone }

/-- The context obtained by declaring the required-switch verbose against
a fresh context (used to witness the required-bit clearing). -/
def verboseCtxFix : Ctx :=
  { argv := [str "prog"], appVersion := none,
    args := [{ name := str "verbose", shortName := none,
               flags := XO_ARGS_TYPE_SWITCH, hasValue := false,
               value := ArgValue.vNone }],
    out := [] }

/-- A post-scan context in which the implicit help switch was set. -/
def helpSetCtxFix : Ctx :=
  { argv := [str "prog"], appVersion := none,
    args := [{ name := str "help", shortName := some (str "h"),
               flags := XO_ARGS_TYPE_SWITCH, hasValue := true,
               value := ArgValue.vNone }],
    out := [] }

/-- A post-scan context with a version string in which the implicit
version switch was set. -/
def versionSetCtxFix : Ctx :=
  { argv := [str "prog"], appVersion := some (str "1.0"),
    args := [{ name := str "version", shortName := some (str "v"),
               flags := XO_ARGS_TYPE_SWITCH, hasValue := true,
               value := ArgValue.vNone }],
    out := [] }

/-! Helper lemmas shared by the claim theorems. -/

/-- The string-array slurp loop consumes exactly the longest prefix of
tokens matching no declared argument. -/
theorem slurpStr_eq_takeWhile (args : List Arg) (l : List Str) :
    slurpStr args l = l.takeWhile (noFlagTok args) := by
  induction l with
  | nil => rfl
  | cons t rest ih =>
    by_cases h : matchesAny args t
    · simp [slurpStr, List.takeWhile_cons, noFlagTok, h]
    · simp [slurpStr, List.takeWhile_cons, noFlagTok, h, ih]

/-- The elements the int-array slurp stores are, in encounter order, the
parses of the longest prefix of tokens that match no declared argument
and satisfy the integer grammar. -/
theorem slurpInt_fst_eq (args : List Arg) (l : List Str) :
    (slurpInt args l).1 =
      (l.takeWhile
        (fun t => noFlagTok args t && (_xo_args_try_parse_int t).isSome)).map
        (fun t => (_xo_args_try_parse_int t).getD 0) := by
  induction l with
  | nil => rfl
  | cons t rest ih =>
    by_cases h : matchesAny args t
    · simp [slurpInt, List.takeWhile_cons, noFlagTok, h]
    · cases hp : _xo_args_try_parse_int t with
      | none => simp [slurpInt, List.takeWhile_cons, noFlagTok, h, hp]
      | some v => simp [slurpInt, List.takeWhile_cons, noFlagTok, h, hp, ih]

/-- The duplicate check at lines 1113-1122 precedes all type dispatch: a
non-array argument that already has a value is rejected with the
multiple-times diagnostic, whatever its type, the match form, and the
remaining tokens, and nothing is consumed. -/
theorem tryParse_dup (args : List Arg) (argv : List Str) (i : Nat) (a : Arg)
    (m : MatchType) (h1 : a.hasValue = true)
    (h2 : _xo_args_arg_flag_is_array a.flags = false) :
    _xo_args_try_parse_arg args argv i a m =
      ⟨false, a, 0, [Diag.errMultiple (argv.getD i [])]⟩ := by
  unfold _xo_args_try_parse_arg
  simp [h1, h2]

/-- The string-array branch (lines 1364-1407): with a token available
after the flag, that token is stored unconditionally as the first element,
the slurp loop appends the following non-matching tokens, and the index
advances past everything consumed — for any match form and regardless of
whether the argument already had a value. -/
theorem tryParse_strArr (args : List Arg) (argv : List Str) (i : Nat)
    (a : Arg) (m : MatchType) (hf : stringArrayFlagged a)
    (hlen : i + 1 < argv.length) :
    _xo_args_try_parse_arg args argv i a m =
      ⟨true,
       { a with hasValue := true, value := ArgValue.vStrArr (getStrArr a.value ++ argv.getD (i + 1) [] :: slurpStr args (argv.drop (i + 2))) },
       1 + (slurpStr args (argv.drop (i + 2))).length, []⟩ := by
  have hnot : ¬ i + 1 ≥ argv.length := by omega
  rcases hf with h | h <;>
    simp +decide [_xo_args_try_parse_arg, h, _xo_args_arg_flag_is_array,
      XO_ARGS_TYPE_STRING_ARRAY, XO_ARGS_TYPE_INT_ARRAY,
      XO_ARGS_TYPE_DOUBLE_ARRAY, XO_ARGS_TYPE_BOOL_ARRAY,
      XO_ARGS_TYPE_STRING, XO_ARGS_TYPE_SWITCH, XO_ARGS_TYPE_BOOL,
      XO_ARGS_TYPE_INT, XO_ARGS_ARG_REQUIRED, hnot]

/-- The int-array branch (lines 1409-1476) with a first value that
parses: elements accumulate onto the existing array in encounter order;
the loop's completion flag decides success and the error diagnostic. -/
theorem tryParse_intArr_ok (args : List Arg) (argv : List Str) (i : Nat)
    (a : Arg) (m : MatchType) (v : Int) (hf : intArrayFlagged a)
    (hlen : i + 1 < argv.length)
    (hp : _xo_args_try_parse_int (argv.getD (i + 1) []) = some v) :
    _xo_args_try_parse_arg args argv i a m =
      ⟨(slurpInt args (argv.drop (i + 2))).2,
       { a with hasValue := true, value := ArgValue.vIntArr (getIntArr a.value ++ v :: (slurpInt args (argv.drop (i + 2))).1) },
       1 + (slurpInt args (argv.drop (i + 2))).1.length,
       if (slurpInt args (argv.drop (i + 2))).2 then []
       else [Diag.errInvalidInt (argv.getD i [])]⟩ := by
  have hnot : ¬ i + 1 ≥ argv.length := by omega
  simp only [List.getD, List.get?_eq_getElem?] at hp
  rcases hf with h | h <;>
  · simp +decide [_xo_args_try_parse_arg, h, _xo_args_arg_flag_is_array,
      XO_ARGS_TYPE_STRING_ARRAY, XO_ARGS_TYPE_INT_ARRAY,
      XO_ARGS_TYPE_DOUBLE_ARRAY, XO_ARGS_TYPE_BOOL_ARRAY,
      XO_ARGS_TYPE_STRING, XO_ARGS_TYPE_SWITCH, XO_ARGS_TYPE_BOOL,
      XO_ARGS_TYPE_INT, XO_ARGS_ARG_REQUIRED, hnot, hp]
    cases h2 : (slurpInt args (argv.drop (i + 2))).2 <;> simp [h2]

theorem tryParse_intArr_first_fail (args : List Arg) (argv : List Str)
    (i : Nat) (a : Arg) (m : MatchType) (hf : intArrayFlagged a)
    (hlen : i + 1 < argv.length)
    (hp : _xo_args_try_parse_int (argv.getD (i + 1) []) = none) :
    _xo_args_try_parse_arg args argv i a m =
      ⟨false, a, 0, [Diag.errInvalidInt (argv.getD i [])]⟩ := by
  have hnot : ¬ i + 1 ≥ argv.length := by omega
  simp only [List.getD, List.get?_eq_getElem?] at hp
  rcases hf with h | h <;>
    simp +decide [_xo_args_try_parse_arg, h, _xo_args_arg_flag_is_array,
      XO_ARGS_TYPE_STRING_ARRAY, XO_ARGS_TYPE_INT_ARRAY,
      XO_ARGS_TYPE_DOUBLE_ARRAY, XO_ARGS_TYPE_BOOL_ARRAY,
      XO_ARGS_TYPE_STRING, XO_ARGS_TYPE_SWITCH, XO_ARGS_TYPE_BOOL,
      XO_ARGS_TYPE_INT, XO_ARGS_ARG_REQUIRED, hnot, hp]

theorem tryParse_switch_adv (args : List Arg) (argv : List Str) (i : Nat)
    (a : Arg) (m : MatchType) (hf : switchFlagged a) :
    (_xo_args_try_parse_arg args argv i a m).adv = 0 := by
  unfold switchFlagged at hf
  by_cases hv : a.hasValue <;>
    simp +decide [_xo_args_try_parse_arg, hf, _xo_args_arg_flag_is_array,
      XO_ARGS_TYPE_STRING_ARRAY, XO_ARGS_TYPE_INT_ARRAY,
      XO_ARGS_TYPE_DOUBLE_ARRAY, XO_ARGS_TYPE_BOOL_ARRAY,
      XO_ARGS_TYPE_STRING, XO_ARGS_TYPE_SWITCH, hv]

theorem tryParse_switch_fresh (args : List Arg) (argv : List Str) (i : Nat)
    (a : Arg) (m : MatchType) (hf : switchFlagged a)
    (hv : a.hasValue = false) :
    _xo_args_try_parse_arg args argv i a m =
      ⟨true, { a with hasValue := true }, 0, []⟩ := by
  unfold switchFlagged at hf
  simp +decide [_xo_args_try_parse_arg, hf, _xo_args_arg_flag_is_array,
    XO_ARGS_TYPE_STRING_ARRAY, XO_ARGS_TYPE_INT_ARRAY,
    XO_ARGS_TYPE_DOUBLE_ARRAY, XO_ARGS_TYPE_BOOL_ARRAY,
    XO_ARGS_TYPE_STRING, XO_ARGS_TYPE_SWITCH, hv]

theorem tryGetBool_switch (a : Arg) (hf : switchFlagged a) :
    xo_args_try_get_bool (some a) = some a.hasValue := by
  unfold switchFlagged at hf
  simp +decide [xo_args_try_get_bool, hf,
    XO_ARGS_TYPE_BOOL, XO_ARGS_TYPE_SWITCH]

theorem tryParse_matchIrrelevant (args : List Arg) (argv : List Str)
    (i : Nat) (a : Arg) (m1 m2 : MatchType) (hf : anyArrayFlagged a) :
    _xo_args_try_parse_arg args argv i a m1 =
      _xo_args_try_parse_arg args argv i a m2 := by
  rcases hf with (h | h) | (h | h) | (h | h) <;>
    simp +decide [_xo_args_try_parse_arg, h, _xo_args_arg_flag_is_array,
      XO_ARGS_TYPE_STRING_ARRAY, XO_ARGS_TYPE_INT_ARRAY,
      XO_ARGS_TYPE_DOUBLE_ARRAY, XO_ARGS_TYPE_BOOL_ARRAY,
      XO_ARGS_TYPE_STRING, XO_ARGS_TYPE_SWITCH, XO_ARGS_TYPE_BOOL,
      XO_ARGS_TYPE_INT, XO_ARGS_ARG_REQUIRED]

theorem tryParse_array_noValue (args : List Arg) (argv : List Str) (i : Nat)
    (a : Arg) (m : MatchType) (hf : anyArrayFlagged a)
    (hlen : i + 1 ≥ argv.length) :
    _xo_args_try_parse_arg args argv i a m =
      ⟨false, a, 0, [Diag.errNoValue (argv.getD i [])]⟩ := by
  rcases hf with (h | h) | (h | h) | (h | h) <;>
    simp +decide [_xo_args_try_parse_arg, h, _xo_args_arg_flag_is_array,
      XO_ARGS_TYPE_STRING_ARRAY, XO_ARGS_TYPE_INT_ARRAY,
      XO_ARGS_TYPE_DOUBLE_ARRAY, XO_ARGS_TYPE_BOOL_ARRAY,
      XO_ARGS_TYPE_STRING, XO_ARGS_TYPE_SWITCH, XO_ARGS_TYPE_BOOL,
      XO_ARGS_TYPE_INT, XO_ARGS_ARG_REQUIRED, hlen]

theorem submitFinish_help (ctx : Ctx) (hIdx vIdx : Option Nat)
    (h : xo_args_try_get_bool (argAt ctx hIdx) = some true) :
    submitFinish ctx hIdx vIdx =
      (false, { ctx with out := ctx.out ++ printHelpOut ctx }) := by
  unfold submitFinish
  simp [h]

theorem submitFinish_version (ctx : Ctx) (hIdx vIdx : Option Nat)
    (h1 : xo_args_try_get_bool (argAt ctx hIdx) ≠ some true)
    (h2 : ctx.appVersion.isSome)
    (h3 : xo_args_try_get_bool (argAt ctx vIdx) = some true) :
    submitFinish ctx hIdx vIdx =
      (false, { ctx with out := ctx.out ++ printHelpOut ctx }) := by
  unfold submitFinish
  simp [h1, h2, h3]

theorem submitFinish_missing (ctx : Ctx) (hIdx vIdx : Option Nat) (a : Arg)
    (h1 : xo_args_try_get_bool (argAt ctx hIdx) ≠ some true)
    (h2 : ¬(ctx.appVersion.isSome ∧
        xo_args_try_get_bool (argAt ctx vIdx) = some true))
    (hm : firstMissingRequired ctx.args = some a) :
    submitFinish ctx hIdx vIdx =
      (false, { ctx with out :=
        ctx.out ++ [Diag.errRequired a.name a.shortName, Diag.tryHelp] }) := by
  unfold submitFinish
  simp [h1, h2, hm]

theorem submitFinish_ok (ctx : Ctx) (hIdx vIdx : Option Nat)
    (h1 : xo_args_try_get_bool (argAt ctx hIdx) ≠ some true)
    (h2 : ¬(ctx.appVersion.isSome ∧
        xo_args_try_get_bool (argAt ctx vIdx) = some true))
    (hm : firstMissingRequired ctx.args = none) :
    submitFinish ctx hIdx vIdx = (true, ctx) := by
  unfold submitFinish
  simp [h1, h2, hm]

theorem submit_eq_finish (ctx c1 : Ctx)
    (hs : scanLoop (declareImplicits ctx).2.2.argv.length
      (declareImplicits ctx).2.2 1 = ScanResult.ok c1) :
    xo_args_submit ctx =
      submitFinish c1 (declareImplicits ctx).1 (declareImplicits ctx).2.1 := by
  unfold xo_args_submit
  simp only [hs]

theorem printHelpOut_no_diag (ctx : Ctx) :
    Diag.tryHelp ∉ printHelpOut ctx ∧
    (∀ nm sn, Diag.errRequired nm sn ∉ printHelpOut ctx) ∧
    (∀ t, Diag.errUnknownArgument t ∉ printHelpOut ctx) := by
  cases h : ctx.appVersion <;> simp [printHelpOut, h]

theorem printHelpOut_version (ctx : Ctx) (h : ctx.appVersion.isSome) :
    Diag.versionLine ∈ printHelpOut ctx := by
  cases hv : ctx.appVersion with
  | none => rw [hv] at h; simp at h
  | some v => simp [printHelpOut, hv]

theorem printHelp_eq_printVersion_concat (ctx : Ctx)
    (h : ctx.appVersion.isSome) :
    printHelpOut ctx = printVersionOut ctx ++ [Diag.helpBody] := by
  cases hv : ctx.appVersion with
  | none => rw [hv] at h; simp at h
  | some v => simp [printHelpOut, printVersionOut, hv]

theorem firstMissingRequired_none_iff (args : List Arg) :
    firstMissingRequired args = none ↔
      ∀ a ∈ args, a.flags &&& XO_ARGS_ARG_REQUIRED ≠ 0 → a.hasValue = true := by
  unfold firstMissingRequired
  rw [List.find?_eq_none]
  constructor
  · intro h a ha hr
    have := h a ha
    simp [hr] at this
    exact this
  · intro h a ha
    by_cases hr : a.flags &&& XO_ARGS_ARG_REQUIRED = 0
    · simp [hr]
    · simp [hr, h a ha hr]

theorem firstMissingRequired_some (args : List Arg) (a : Arg)
    (h : firstMissingRequired args = some a) :
    a ∈ args ∧ a.flags &&& XO_ARGS_ARG_REQUIRED ≠ 0 ∧ a.hasValue = false := by
  have h1 := List.mem_of_find?_eq_some h
  have h2 := List.find?_some h
  simp at h2
  exact ⟨h1, h2.1, h2.2⟩

theorem declare_required_switch_success (ctx : Ctx) (name : Str)
    (sn : Option Str) (j : Nat) (c2 : Ctx)
    (h : xo_args_declare_arg ctx name sn
      (XO_ARGS_TYPE_SWITCH ||| XO_ARGS_ARG_REQUIRED) = (some j, c2)) :
    j = ctx.args.length ∧
    c2.args = ctx.args ++
      [{ name := name, shortName := sn, flags := XO_ARGS_TYPE_SWITCH,
         hasValue := false, value := ArgValue.vNone }] := by
  unfold xo_args_declare_arg at h
  split at h
  · simp at h
  · split at h
    · simp at h
    · split at h
      · simp at h
      · split at h
        · simp at h
        · rw [Prod.mk.injEq] at h
          obtain ⟨hj, hc⟩ := h
          refine ⟨(Option.some.inj hj).symm, ?_⟩
          rw [← hc]
          norm_num [XO_ARGS_TYPE_SWITCH, XO_ARGS_ARG_REQUIRED, allTypes,
            XO_ARGS_TYPE_STRING, XO_ARGS_TYPE_BOOL, XO_ARGS_TYPE_INT,
            XO_ARGS_TYPE_DOUBLE, XO_ARGS_TYPE_BOOL_ARRAY,
            XO_ARGS_TYPE_INT_ARRAY, XO_ARGS_TYPE_DOUBLE_ARRAY,
            XO_ARGS_TYPE_STRING_ARRAY, initialValue]
          decide

theorem declare_required_switch_isSome (ctx : Ctx) (name : Str)
    (sn : Option Str) :
    (xo_args_declare_arg ctx name sn
      (XO_ARGS_TYPE_SWITCH ||| XO_ARGS_ARG_REQUIRED)).1.isSome =
    (xo_args_declare_arg ctx name sn XO_ARGS_TYPE_SWITCH).1.isSome := by
  unfold xo_args_declare_arg
  split
  · rfl
  · split
    · rfl
    · have hp1 : ¬ popcount ((XO_ARGS_TYPE_SWITCH ||| XO_ARGS_ARG_REQUIRED)
        &&& allTypes) > 1 := by decide
      have hp2 : ¬ popcount (XO_ARGS_TYPE_SWITCH &&& allTypes) > 1 := by
        decide
      rw [if_neg hp1, if_neg hp2]
      split
      · rfl
      · rfl

theorem tryParse_boolArr_ok (args : List Arg) (argv : List Str) (i : Nat)
    (a : Arg) (m : MatchType) (v : Bool) (hf : boolArrayFlagged a)
    (hlen : i + 1 < argv.length)
    (hp : _xo_args_try_parse_bool (argv.getD (i + 1) []) = some v) :
    _xo_args_try_parse_arg args argv i a m =
      ⟨(slurpBool args (argv.drop (i + 2))).2,
       { a with hasValue := true, value := ArgValue.vBoolArr (getBoolArr a.value ++ v :: (slurpBool args (argv.drop (i + 2))).1) },
       1 + (slurpBool args (argv.drop (i + 2))).1.length,
       if (slurpBool args (argv.drop (i + 2))).2 then []
       else [Diag.errInvalidBool (argv.getD i [])]⟩ := by
  have hnot : ¬ i + 1 ≥ argv.length := by omega
  simp only [List.getD, List.get?_eq_getElem?] at hp
  rcases hf with h | h <;>
  · simp +decide [_xo_args_try_parse_arg, h, _xo_args_arg_flag_is_array,
      XO_ARGS_TYPE_STRING_ARRAY, XO_ARGS_TYPE_INT_ARRAY,
      XO_ARGS_TYPE_DOUBLE_ARRAY, XO_ARGS_TYPE_BOOL_ARRAY,
      XO_ARGS_TYPE_STRING, XO_ARGS_TYPE_SWITCH, XO_ARGS_TYPE_BOOL,
      XO_ARGS_TYPE_INT, XO_ARGS_ARG_REQUIRED, hnot, hp]
    cases h2 : (slurpBool args (argv.drop (i + 2))).2 <;> simp [h2]

theorem tryParse_boolArr_first_fail (args : List Arg) (argv : List Str)
    (i : Nat) (a : Arg) (m : MatchType) (hf : boolArrayFlagged a)
    (hlen : i + 1 < argv.length)
    (hp : _xo_args_try_parse_bool (argv.getD (i + 1) []) = none) :
    _xo_args_try_parse_arg args argv i a m =
      ⟨false, a, 0, [Diag.errInvalidBool (argv.getD i [])]⟩ := by
  have hnot : ¬ i + 1 ≥ argv.length := by omega
  simp only [List.getD, List.get?_eq_getElem?] at hp
  rcases hf with h | h <;>
    simp +decide [_xo_args_try_parse_arg, h, _xo_args_arg_flag_is_array,
      XO_ARGS_TYPE_STRING_ARRAY, XO_ARGS_TYPE_INT_ARRAY,
      XO_ARGS_TYPE_DOUBLE_ARRAY, XO_ARGS_TYPE_BOOL_ARRAY,
      XO_ARGS_TYPE_STRING, XO_ARGS_TYPE_SWITCH, XO_ARGS_TYPE_BOOL,
      XO_ARGS_TYPE_INT, XO_ARGS_ARG_REQUIRED, hnot, hp]

theorem tryParse_array_no_dup (args : List Arg) (argv : List Str) (i : Nat)
    (a : Arg) (m : MatchType) (t : Str) (hf : anyArrayFlagged a) :
    Diag.errMultiple t ∉ (_xo_args_try_parse_arg args argv i a m).diags := by
  by_cases hlen : i + 1 ≥ argv.length
  · rw [tryParse_array_noValue args argv i a m hf hlen]
    simp
  · have hlen2 : i + 1 < argv.length := by omega
    rcases hf with hs | hi | hb
    · rw [tryParse_strArr args argv i a m hs hlen2]
      simp
    · cases hp : _xo_args_try_parse_int (argv.getD (i + 1) []) with
      | none =>
        rw [tryParse_intArr_first_fail args argv i a m hi hlen2 hp]
        simp
      | some v =>
        rw [tryParse_intArr_ok args argv i a m v hi hlen2 hp]
        cases h2 : (slurpInt args (argv.drop (i + 2))).2 <;> simp [h2]
    · cases hp : _xo_args_try_parse_bool (argv.getD (i + 1) []) with
      | none =>
        rw [tryParse_boolArr_first_fail args argv i a m hb hlen2 hp]
        simp
      | some v =>
        rw [tryParse_boolArr_ok args argv i a m v hb hlen2 hp]
        cases h2 : (slurpBool args (argv.drop (i + 2))).2 <;> simp [h2]

/-! Claim theorems. -/

/-- C1: for every string-array argument, after the flag token the first
following token is always consumed as the first element (even if that
token itself matches a declared argument), and subsequent tokens are
appended until one matches some declared argument or argv is exhausted;
for an int array the same boundary applies but the first token must also
satisfy the integer grammar, else submission aborts with a grammar error;
plus the three concrete scenarios of the claim (with foo an int array in
the third). -/
theorem claim_C1 :
    (∀ (args : List Arg) (argv : List Str) (i : Nat) (a : Arg)
       (m : MatchType), stringArrayFlagged a → i + 1 < argv.length →
      _xo_args_try_parse_arg args argv i a m =
        ⟨true,
         { a with hasValue := true, value := ArgValue.vStrArr (getStrArr a.value ++ argv.getD (i + 1) [] :: (argv.drop (i + 2)).takeWhile (noFlagTok args)) },
         1 + ((argv.drop (i + 2)).takeWhile (noFlagTok args)).length, []⟩) ∧
    (∀ (args : List Arg) (argv : List Str) (i : Nat) (a : Arg)
       (m : MatchType), intArrayFlagged a → i + 1 < argv.length →
      _xo_args_try_parse_int (argv.getD (i + 1) []) = none →
      _xo_args_try_parse_arg args argv i a m =
        ⟨false, a, 0, [Diag.errInvalidInt (argv.getD i [])]⟩) ∧
    (let ctx := (xo_args_declare_arg
      (mkCtx [str "prog", str "--foo", str "1", str "2", str "--bar"] none)
      (str "foo") none XO_ARGS_TYPE_STRING_ARRAY).2
     (xo_args_submit ctx).1 = true ∧
     xo_args_try_get_string_array ((xo_args_submit ctx).2.args.get? 0) =
       some [str "1", str "2", str "--bar"]) ∧
    (let ctx := (xo_args_declare_arg
      (mkCtx [str "prog", str "--foo", str "--foo"] none)
      (str "foo") none XO_ARGS_TYPE_STRING_ARRAY).2
     (xo_args_submit ctx).1 = true ∧
     xo_args_try_get_string_array ((xo_args_submit ctx).2.args.get? 0) =
       some [str "--foo"]) ∧
    (let ctx := (xo_args_declare_arg ((xo_args_declare_arg
      (mkCtx [str "prog", str "--foo", str "1", str "2", str "--bar", str "X"]
        none)
      (str "foo") none XO_ARGS_TYPE_INT_ARRAY).2)
      (str "bar") none XO_ARGS_TYPE_STRING).2
     (xo_args_submit ctx).1 = true ∧
     xo_args_try_get_int_array ((xo_args_submit ctx).2.args.get? 0) =
       some [1, 2] ∧
     xo_args_try_get_string ((xo_args_submit ctx).2.args.get? 1) =
       some (str "X")) := by
  refine ⟨?_, ?_, by decide, by decide, by decide⟩
  · intro args argv i a m hf hlen
    rw [tryParse_strArr args argv i a m hf hlen, slurpStr_eq_takeWhile]
  · intro args argv i a m hf hlen hp
    exact tryParse_intArr_first_fail args argv i a m hf hlen hp

/-- C1 counterexample: with foo declared as an int array, argv
[prog, --foo, --foo] does not consume the second --foo as the first
element; submission fails with nothing stored, refuting the claim as
stated for every array-type argument. -/
theorem claim_C1_counterexample :
    (let ctx := (xo_args_declare_arg
      (mkCtx [str "prog", str "--foo", str "--foo"] none)
      (str "foo") none XO_ARGS_TYPE_INT_ARRAY).2
     (xo_args_submit ctx).1 = false ∧
     ((xo_args_submit ctx).2.args.getD 0 default).hasValue = false ∧
     xo_args_try_get_int_array ((xo_args_submit ctx).2.args.get? 0) =
       none) := by decide


/-- C1 witness: the two universal parts of claim_C1 instantiated at a
concrete registry, token vector and match. -/
theorem claim_C1_witness :
    (_xo_args_try_parse_arg [fooStrArrFix] [str "p", str "--foo", str "x"] 1
      fooStrArrFix MatchType.mtName =
      ⟨true, { fooStrArrFix with hasValue := true, value := ArgValue.vStrArr [str "x"] }, 1, []⟩) ∧
    (_xo_args_try_parse_arg [fooIntArrFix] [str "p", str "--foo", str "q"] 1
      fooIntArrFix MatchType.mtName =
      ⟨false, fooIntArrFix, 0, [Diag.errInvalidInt (str "--foo")]⟩) := by
  constructor
  · exact claim_C1.1 [fooStrArrFix] [str "p", str "--foo", str "x"] 1
      fooStrArrFix MatchType.mtName (Or.inl rfl) (by decide)
  · exact claim_C1.2.1 [fooIntArrFix] [str "p", str "--foo", str "q"] 1
      fooIntArrFix MatchType.mtName (Or.inl rfl) (by decide) (by decide)

/-- C2: the int-array slurp stores elements in command-line encounter
order (the parses of the consumed token prefix, in order), argv
[prog, --foo, 1, 2, 3] yields [1,2,3] in that order, and repeating the
flag ([prog, --foo, 1, --foo, 2]) gives exactly the same stored array as
listing the values after one flag ([prog, --foo, 1, 2]). -/
theorem claim_C2 :
    (∀ (args : List Arg) (l : List Str),
      (slurpInt args l).1 =
        (l.takeWhile
          (fun t => noFlagTok args t && (_xo_args_try_parse_int t).isSome)).map
          (fun t => (_xo_args_try_parse_int t).getD 0)) ∧
    (let ctx := (xo_args_declare_arg
      (mkCtx [str "prog", str "--foo", str "1", str "2", str "3"] none)
      (str "foo") none XO_ARGS_TYPE_INT_ARRAY).2
     (xo_args_submit ctx).1 = true ∧
     xo_args_try_get_int_array ((xo_args_submit ctx).2.args.get? 0) =
       some [1, 2, 3]) ∧
    (let ctxR := (xo_args_declare_arg
      (mkCtx [str "prog", str "--foo", str "1", str "--foo", str "2"] none)
      (str "foo") none XO_ARGS_TYPE_INT_ARRAY).2
     let ctxS := (xo_args_declare_arg
      (mkCtx [str "prog", str "--foo", str "1", str "2"] none)
      (str "foo") none XO_ARGS_TYPE_INT_ARRAY).2
     (xo_args_submit ctxR).1 = true ∧ (xo_args_submit ctxS).1 = true ∧
     xo_args_try_get_int_array ((xo_args_submit ctxR).2.args.get? 0) =
       some [1, 2] ∧
     xo_args_try_get_int_array ((xo_args_submit ctxR).2.args.get? 0) =
       xo_args_try_get_int_array ((xo_args_submit ctxS).2.args.get? 0)) := by
  exact ⟨slurpInt_fst_eq, by decide, by decide⟩

/-- C3: a non-array argument that already has a value is rejected with the
multiple-times diagnostic before any type dispatch (uniformly in the type
bits, match form and tokens); an array argument never receives that
diagnostic, and a further occurrence appends onto the existing elements;
concretely, a duplicated scalar makes submit fail with the diagnostic
while a duplicated string array accumulates both values. -/
theorem claim_C3 :
    (∀ (args : List Arg) (argv : List Str) (i : Nat) (a : Arg)
       (m : MatchType), a.hasValue = true →
      _xo_args_arg_flag_is_array a.flags = false →
      _xo_args_try_parse_arg args argv i a m =
        ⟨false, a, 0, [Diag.errMultiple (argv.getD i [])]⟩) ∧
    (∀ (args : List Arg) (argv : List Str) (i : Nat) (a : Arg)
       (m : MatchType) (t : Str), anyArrayFlagged a →
      Diag.errMultiple t ∉ (_xo_args_try_parse_arg args argv i a m).diags) ∧
    (∀ (args : List Arg) (argv : List Str) (i : Nat) (a : Arg)
       (m : MatchType), stringArrayFlagged a → i + 1 < argv.length →
      (_xo_args_try_parse_arg args argv i a m).ok = true ∧
      getStrArr (_xo_args_try_parse_arg args argv i a m).arg.value =
        getStrArr a.value ++
          argv.getD (i + 1) [] :: slurpStr args (argv.drop (i + 2))) ∧
    (let ctx := (xo_args_declare_arg
      (mkCtx [str "prog", str "--foo", str "a", str "--foo", str "b"] none)
      (str "foo") none XO_ARGS_TYPE_STRING).2
     (xo_args_submit ctx).1 = false ∧
     Diag.errMultiple (str "--foo") ∈ (xo_args_submit ctx).2.out) ∧
    (let ctx := (xo_args_declare_arg
      (mkCtx [str "prog", str "--foo", str "a", str "--foo", str "b"] none)
      (str "foo") none XO_ARGS_TYPE_STRING_ARRAY).2
     (xo_args_submit ctx).1 = true ∧
     xo_args_try_get_string_array ((xo_args_submit ctx).2.args.get? 0) =
       some [str "a", str "b"]) := by
  refine ⟨tryParse_dup, tryParse_array_no_dup, ?_, by decide, by decide⟩
  intro args argv i a m hf hlen
  rw [tryParse_strArr args argv i a m hf hlen]
  simp [getStrArr]

/-- C3 witness: the universal parts of claim_C3 instantiated at concrete
arguments and tokens. -/
theorem claim_C3_witness :
    (_xo_args_try_parse_arg [fooStringSetFix] [str "p", str "--foo", str "b"]
      1 fooStringSetFix MatchType.mtName =
      ⟨false, fooStringSetFix, 0, [Diag.errMultiple (str "--foo")]⟩) ∧
    (Diag.errMultiple (str "--foo") ∉
      (_xo_args_try_parse_arg [fooStrArrFix] [str "p", str "--foo", str "b"]
        1 fooStrArrFix MatchType.mtName).diags) ∧
    ((_xo_args_try_parse_arg [fooStrArrFix] [str "p", str "--foo", str "b"]
        1 fooStrArrFix MatchType.mtName).ok = true ∧
     getStrArr (_xo_args_try_parse_arg [fooStrArrFix]
        [str "p", str "--foo", str "b"] 1 fooStrArrFix
        MatchType.mtName).arg.value = [str "b"]) := by
  refine ⟨?_, ?_, ?_⟩
  · exact claim_C3.1 [fooStringSetFix] [str "p", str "--foo", str "b"] 1
      fooStringSetFix MatchType.mtName (by decide) (by decide)
  · exact claim_C3.2.1 [fooStrArrFix] [str "p", str "--foo", str "b"] 1
      fooStrArrFix MatchType.mtName (str "--foo") (Or.inl (Or.inl rfl))
  · exact claim_C3.2.2.1 [fooStrArrFix] [str "p", str "--foo", str "b"] 1
      fooStrArrFix MatchType.mtName (Or.inl rfl) (by decide)

/-- C4: the code accepts the declaration name "!" (and "a!"): the final
character of a name is never validated by _xo_isalnum_str, so
xo_args_declare_arg returns a handle although '!' is outside the
alphanumeric-plus-hyphen class, contradicting the claim and the
function's own assertion text. -/
theorem claim_C4 :
    _xo_isalnum '!' = false ∧
    _xo_isalnum_str (str "!") = true ∧
    (xo_args_declare_arg (mkCtx [str "prog"] none) (str "!") none
      XO_ARGS_TYPE_STRING).1 = some 0 ∧
    (xo_args_declare_arg (mkCtx [str "prog"] none) (str "a!") none
      XO_ARGS_TYPE_STRING).1 = some 0 := by decide

/-- C8: the integer value grammar reproduces all the claim's vectors:
decimal, hexadecimal, octal and explicitly signed spellings of 57005 and
-57005, overflow rejection one past INT64_MAX, and rejection of empty,
whitespace, fractional and malformed-hexadecimal tokens. -/
theorem claim_C8 :
    _xo_args_try_parse_int (str "57005") = some 57005 ∧
    _xo_args_try_parse_int (str "0x0000DEAD") = some 57005 ∧
    _xo_args_try_parse_int (str "0157255") = some 57005 ∧
    _xo_args_try_parse_int (str "+57005") = some 57005 ∧
    _xo_args_try_parse_int (str "-57005") = some (-57005) ∧
    _xo_args_try_parse_int (str "-0x0000DEAD") = some (-57005) ∧
    _xo_args_try_parse_int (str "-0157255") = some (-57005) ∧
    _xo_args_try_parse_int (str "9223372036854775808") = none ∧
    _xo_args_try_parse_int (str "9223372036854775807") =
      some 9223372036854775807 ∧
    _xo_args_try_parse_int (str "-9223372036854775808") =
      some (-9223372036854775808) ∧
    _xo_args_try_parse_int (str "-9223372036854775809") = none ∧
    _xo_args_try_parse_int (str "") = none ∧
    _xo_args_try_parse_int (str " ") = none ∧
    _xo_args_try_parse_int (str "1.0") = none ∧
    _xo_args_try_parse_int (str "0xabcdefg") = none := by decide

/-- C10: submission is not atomic on failure: with foo an int array and
argv [prog, --foo, 1, 2, bogus], submit fails on the grammar error at
bogus, yet the elements consumed before the error remain stored: has_value
is true and try_get_int_array still finds [1, 2]. -/
theorem claim_C10 :
    (let ctx := (xo_args_declare_arg
      (mkCtx [str "prog", str "--foo", str "1", str "2", str "bogus"] none)
      (str "foo") none XO_ARGS_TYPE_INT_ARRAY).2
     (xo_args_submit ctx).1 = false ∧
     Diag.errInvalidInt (str "--foo") ∈ (xo_args_submit ctx).2.out ∧
     ((xo_args_submit ctx).2.args.getD 0 default).hasValue = true ∧
     xo_args_try_get_int_array ((xo_args_submit ctx).2.args.get? 0) =
       some [1, 2]) := by decide

theorem getD_append_singleton {α : Type} (l : List α) (a d : α) :
    (l ++ [a]).getD l.length d = a := by
  induction l with
  | nil => rfl
  | cons x xs ih => simp only [List.cons_append, List.length_cons, List.getD_cons_succ]; exact ih

/-- C5: declaring a switch with the required flag always succeeds exactly
when the same declaration without it would, and stores an argument whose
required bit is cleared; parsing a switch token never consumes a
following token (the index advance is zero for any match and state, and a
fresh switch just records presence); try_get_bool on a switch reports
found with value equal to has_value, hence (false, true) when the flag
was absent and (true, true) when present, as the two end-to-end runs
show. -/
theorem claim_C5 :
    (∀ (ctx : Ctx) (name : Str) (sn : Option Str) (j : Nat) (c2 : Ctx),
      xo_args_declare_arg ctx name sn
        (XO_ARGS_TYPE_SWITCH ||| XO_ARGS_ARG_REQUIRED) = (some j, c2) →
      (c2.args.getD j default).flags = XO_ARGS_TYPE_SWITCH ∧
      (c2.args.getD j default).flags &&& XO_ARGS_ARG_REQUIRED = 0) ∧
    (∀ (ctx : Ctx) (name : Str) (sn : Option Str),
      (xo_args_declare_arg ctx name sn
        (XO_ARGS_TYPE_SWITCH ||| XO_ARGS_ARG_REQUIRED)).1.isSome =
      (xo_args_declare_arg ctx name sn XO_ARGS_TYPE_SWITCH).1.isSome) ∧
    (∀ (args : List Arg) (argv : List Str) (i : Nat) (a : Arg)
       (m : MatchType), switchFlagged a →
      (_xo_args_try_parse_arg args argv i a m).adv = 0) ∧
    (∀ (args : List Arg) (argv : List Str) (i : Nat) (a : Arg)
       (m : MatchType), switchFlagged a → a.hasValue = false →
      _xo_args_try_parse_arg args argv i a m =
        ⟨true, { a with hasValue := true }, 0, []⟩) ∧
    (∀ a : Arg, switchFlagged a →
      xo_args_try_get_bool (some a) = some a.hasValue) ∧
    (let ctx := (xo_args_declare_arg (mkCtx [str "prog"] none)
      (str "verbose") none
      (XO_ARGS_TYPE_SWITCH ||| XO_ARGS_ARG_REQUIRED)).2
     (xo_args_submit ctx).1 = true ∧
     xo_args_try_get_bool ((xo_args_submit ctx).2.args.get? 0) =
       some false) ∧
    (let ctx := (xo_args_declare_arg
      (mkCtx [str "prog", str "--verbose"] none) (str "verbose") none
      (XO_ARGS_TYPE_SWITCH ||| XO_ARGS_ARG_REQUIRED)).2
     (xo_args_submit ctx).1 = true ∧
     xo_args_try_get_bool ((xo_args_submit ctx).2.args.get? 0) =
       some true) := by
  refine ⟨?_, declare_required_switch_isSome, tryParse_switch_adv,
    tryParse_switch_fresh, tryGetBool_switch, by decide, by decide⟩
  intro ctx name sn j c2 h
  obtain ⟨hj, hc⟩ := declare_required_switch_success ctx name sn j c2 h
  subst hj
  rw [hc, getD_append_singleton]
  refine ⟨rfl, ?_⟩
  show XO_ARGS_TYPE_SWITCH &&& XO_ARGS_ARG_REQUIRED = 0
  decide

/-- C5 witness: the universal parts of claim_C5 instantiated at concrete
contexts and arguments. -/
theorem claim_C5_witness :
    ((verboseCtxFix.args.getD 0 default).flags = XO_ARGS_TYPE_SWITCH ∧
     (verboseCtxFix.args.getD 0 default).flags &&& XO_ARGS_ARG_REQUIRED =
       0) ∧
    ((xo_args_declare_arg (mkCtx [str "prog"] none) (str "verbose") none
        (XO_ARGS_TYPE_SWITCH ||| XO_ARGS_ARG_REQUIRED)).1.isSome =
     (xo_args_declare_arg (mkCtx [str "prog"] none) (str "verbose") none
        XO_ARGS_TYPE_SWITCH).1.isSome) ∧
    ((_xo_args_try_parse_arg [fooSwitchFix] [str "p", str "--foo"] 1
        fooSwitchFix MatchType.mtName).adv = 0) ∧
    (_xo_args_try_parse_arg [fooSwitchFix] [str "p", str "--foo"] 1
        fooSwitchFix MatchType.mtName =
      ⟨true, { fooSwitchFix with hasValue := true }, 0, []⟩) ∧
    (xo_args_try_get_bool (some fooSwitchFix) = some false) := by
  refine ⟨?_, ?_, ?_, ?_, ?_⟩
  · exact claim_C5.1 (mkCtx [str "prog"] none) (str "verbose") none 0
      verboseCtxFix (by decide)
  · exact claim_C5.2.1 (mkCtx [str "prog"] none) (str "verbose") none
  · exact claim_C5.2.2.1 [fooSwitchFix] [str "p", str "--foo"] 1
      fooSwitchFix MatchType.mtName rfl
  · exact claim_C5.2.2.2.1 [fooSwitchFix] [str "p", str "--foo"] 1
      fooSwitchFix MatchType.mtName rfl rfl
  · exact claim_C5.2.2.2.2.1 fooSwitchFix rfl

/-- C6: after a clean scan the help switch is consulted first: when set,
submit returns false and appends exactly the help output — whose banner
line carries the version when one exists — with no diagnostic and no
try-help hint, regardless of missing required arguments; when help is not
set and the version switch is set (a version string existing), the same
short circuit fires, and the appended output is the output of
xo_args_print_version followed by the abstracted help body, so the
version line is printed; both checks run before the required-argument
loop, as the two end-to-end runs with a missing required argument show. -/
theorem claim_C6 :
    (∀ (ctx : Ctx) (hIdx vIdx : Option Nat),
      xo_args_try_get_bool (argAt ctx hIdx) = some true →
      submitFinish ctx hIdx vIdx =
        (false, { ctx with out := ctx.out ++ printHelpOut ctx }) ∧
      Diag.tryHelp ∉ printHelpOut ctx ∧
      (∀ nm sn, Diag.errRequired nm sn ∉ printHelpOut ctx)) ∧
    (∀ (ctx : Ctx) (hIdx vIdx : Option Nat),
      xo_args_try_get_bool (argAt ctx hIdx) ≠ some true →
      ctx.appVersion.isSome →
      xo_args_try_get_bool (argAt ctx vIdx) = some true →
      submitFinish ctx hIdx vIdx =
        (false, { ctx with out := ctx.out ++ printHelpOut ctx }) ∧
      printHelpOut ctx = printVersionOut ctx ++ [Diag.helpBody] ∧
      Diag.versionLine ∈ printHelpOut ctx ∧
      Diag.tryHelp ∉ printHelpOut ctx ∧
      (∀ nm sn, Diag.errRequired nm sn ∉ printHelpOut ctx)) ∧
    (∀ (ctx c1 : Ctx),
      scanLoop (declareImplicits ctx).2.2.argv.length
        (declareImplicits ctx).2.2 1 = ScanResult.ok c1 →
      xo_args_submit ctx =
        submitFinish c1 (declareImplicits ctx).1
          (declareImplicits ctx).2.1) ∧
    (let ctx := (xo_args_declare_arg
      (mkCtx [str "prog", str "--help"] none) (str "foo") none
      (XO_ARGS_TYPE_STRING ||| XO_ARGS_ARG_REQUIRED)).2
     (xo_args_submit ctx).1 = false ∧
     (xo_args_submit ctx).2.out = [Diag.nameLine, Diag.helpBody]) ∧
    (let ctx := (xo_args_declare_arg
      (mkCtx [str "prog", str "--version"] (some (str "1.0")))
      (str "foo") none
      (XO_ARGS_TYPE_STRING ||| XO_ARGS_ARG_REQUIRED)).2
     (xo_args_submit ctx).1 = false ∧
     (xo_args_submit ctx).2.out = [Diag.versionLine, Diag.helpBody]) := by
  refine ⟨?_, ?_, submit_eq_finish, by decide, by decide⟩
  · intro ctx hIdx vIdx h
    exact ⟨submitFinish_help ctx hIdx vIdx h, (printHelpOut_no_diag ctx).1,
      (printHelpOut_no_diag ctx).2.1⟩
  · intro ctx hIdx vIdx h1 h2 h3
    exact ⟨submitFinish_version ctx hIdx vIdx h1 h2 h3,
      printHelp_eq_printVersion_concat ctx h2, printHelpOut_version ctx h2,
      (printHelpOut_no_diag ctx).1, (printHelpOut_no_diag ctx).2.1⟩

/-- C6 witness: the universal parts of claim_C6 instantiated at concrete
post-scan contexts with the help switch set, with the version switch set,
and at a concrete full submission. -/
theorem claim_C6_witness :
    (submitFinish helpSetCtxFix (some 0) none =
      (false, { helpSetCtxFix with
        out := helpSetCtxFix.out ++ printHelpOut helpSetCtxFix }) ∧
     Diag.tryHelp ∉ printHelpOut helpSetCtxFix ∧
     (∀ nm sn, Diag.errRequired nm sn ∉ printHelpOut helpSetCtxFix)) ∧
    (submitFinish versionSetCtxFix none (some 0) =
      (false, { versionSetCtxFix with
        out := versionSetCtxFix.out ++ printHelpOut versionSetCtxFix }) ∧
     printHelpOut versionSetCtxFix =
       printVersionOut versionSetCtxFix ++ [Diag.helpBody] ∧
     Diag.versionLine ∈ printHelpOut versionSetCtxFix ∧
     Diag.tryHelp ∉ printHelpOut versionSetCtxFix ∧
     (∀ nm sn, Diag.errRequired nm sn ∉ printHelpOut versionSetCtxFix)) ∧
    (xo_args_submit (mkCtx [str "prog"] none) =
      submitFinish
        { argv := [str "prog"], appVersion := none, args := [helpArgFix],
          out := [] }
        (some 0) none) := by
  refine ⟨?_, ?_, ?_⟩
  · exact claim_C6.1 helpSetCtxFix (some 0) none (by decide)
  · exact claim_C6.2.1 versionSetCtxFix none (some 0) (by decide)
      (by decide) (by decide)
  · exact claim_C6.2.2.1 (mkCtx [str "prog"] none)
      { argv := [str "prog"], appVersion := none, args := [helpArgFix],
        out := [] } (by decide)

/-- C7: when the scan completes without error and neither the help nor the
version switch is set, submit fails exactly when some declared argument is
required and valueless, printing the required diagnostic that names the
first such argument's flag followed by the try-help hint, and succeeds
when every required argument has a value; the first-missing lookup finds
a required, valueless, registered argument, and finds none exactly when
all required arguments have values. -/
theorem claim_C7 :
    (∀ (ctx c1 : Ctx) (a : Arg),
      scanLoop (declareImplicits ctx).2.2.argv.length
        (declareImplicits ctx).2.2 1 = ScanResult.ok c1 →
      xo_args_try_get_bool (argAt c1 (declareImplicits ctx).1) ≠
        some true →
      ¬(c1.appVersion.isSome ∧
        xo_args_try_get_bool (argAt c1 (declareImplicits ctx).2.1) =
          some true) →
      firstMissingRequired c1.args = some a →
      xo_args_submit ctx =
        (false, { c1 with out := c1.out ++
          [Diag.errRequired a.name a.shortName, Diag.tryHelp] })) ∧
    (∀ (ctx c1 : Ctx),
      scanLoop (declareImplicits ctx).2.2.argv.length
        (declareImplicits ctx).2.2 1 = ScanResult.ok c1 →
      xo_args_try_get_bool (argAt c1 (declareImplicits ctx).1) ≠
        some true →
      ¬(c1.appVersion.isSome ∧
        xo_args_try_get_bool (argAt c1 (declareImplicits ctx).2.1) =
          some true) →
      firstMissingRequired c1.args = none →
      xo_args_submit ctx = (true, c1)) ∧
    (∀ (args : List Arg) (a : Arg), firstMissingRequired args = some a →
      a ∈ args ∧ a.flags &&& XO_ARGS_ARG_REQUIRED ≠ 0 ∧
      a.hasValue = false) ∧
    (∀ args : List Arg, firstMissingRequired args = none ↔
      ∀ a ∈ args, a.flags &&& XO_ARGS_ARG_REQUIRED ≠ 0 →
        a.hasValue = true) ∧
    (let ctx := (xo_args_declare_arg (mkCtx [str "prog"] none) (str "foo")
      none (XO_ARGS_TYPE_STRING ||| XO_ARGS_ARG_REQUIRED)).2
     (xo_args_submit ctx).1 = false ∧
     Diag.errRequired (str "foo") none ∈ (xo_args_submit ctx).2.out) ∧
    (let ctx := (xo_args_declare_arg
      (mkCtx [str "prog", str "--foo", str "X"] none) (str "foo") none
      (XO_ARGS_TYPE_STRING ||| XO_ARGS_ARG_REQUIRED)).2
     (xo_args_submit ctx).1 = true) := by
  refine ⟨?_, ?_, firstMissingRequired_some, firstMissingRequired_none_iff,
    by decide, by decide⟩
  · intro ctx c1 a hs h1 h2 hm
    rw [submit_eq_finish ctx c1 hs]
    exact submitFinish_missing c1 _ _ a h1 h2 hm
  · intro ctx c1 hs h1 h2 hm
    rw [submit_eq_finish ctx c1 hs]
    exact submitFinish_ok c1 _ _ h1 h2 hm

/-- C7 witness: the two submit-level parts of claim_C7 instantiated at a
concrete context with a missing required argument and at one with no
required arguments. -/
theorem claim_C7_witness :
    (xo_args_submit ((xo_args_declare_arg (mkCtx [str "prog"] none)
        (str "foo") none
        (XO_ARGS_TYPE_STRING ||| XO_ARGS_ARG_REQUIRED)).2) =
      (false,
       { argv := [str "prog"], appVersion := none,
         args := [fooReqFix, helpArgFix],
         out := [Diag.errRequired (str "foo") none, Diag.tryHelp] })) ∧
    (xo_args_submit (mkCtx [str "prog"] none) =
      (true,
       { argv := [str "prog"], appVersion := none, args := [helpArgFix],
         out := [] })) := by
  constructor
  · exact claim_C7.1 ((xo_args_declare_arg (mkCtx [str "prog"] none)
      (str "foo") none
      (XO_ARGS_TYPE_STRING ||| XO_ARGS_ARG_REQUIRED)).2)
      { argv := [str "prog"], appVersion := none,
        args := [fooReqFix, helpArgFix], out := [] }
      fooReqFix (by decide) (by decide) (by decide) (by decide)
  · exact claim_C7.2.1 (mkCtx [str "prog"] none)
      { argv := [str "prog"], appVersion := none, args := [helpArgFix],
        out := [] }
      (by decide) (by decide) (by decide) (by decide)

/-- C9: for every array-typed argument the match form is irrelevant to
value consumption — in particular an assignment match like --foo=X
behaves exactly like a plain flag match, so the inline value is never
stored — the first element is taken from the next argv token, and when no
token follows, parsing fails with the no-value diagnostic naming the full
token; concretely --foo=X followed by a and b stores exactly [a, b], and
--foo=X at the end of argv fails submission with the no-value error. -/
theorem claim_C9 :
    (∀ (args : List Arg) (argv : List Str) (i : Nat) (a : Arg)
       (m1 m2 : MatchType), anyArrayFlagged a →
      _xo_args_try_parse_arg args argv i a m1 =
        _xo_args_try_parse_arg args argv i a m2) ∧
    (∀ (args : List Arg) (argv : List Str) (i : Nat) (a : Arg)
       (m : MatchType), anyArrayFlagged a → i + 1 ≥ argv.length →
      _xo_args_try_parse_arg args argv i a m =
        ⟨false, a, 0, [Diag.errNoValue (argv.getD i [])]⟩) ∧
    (let ctx := (xo_args_declare_arg
      (mkCtx [str "prog", str "--foo=X", str "a", str "b"] none)
      (str "foo") none XO_ARGS_TYPE_STRING_ARRAY).2
     _xo_args_arg_matches_input (ctx.args.getD 0 default) (str "--foo=X") =
       some MatchType.mtAssignName ∧
     (xo_args_submit ctx).1 = true ∧
     xo_args_try_get_string_array ((xo_args_submit ctx).2.args.get? 0) =
       some [str "a", str "b"]) ∧
    (let ctx := (xo_args_declare_arg
      (mkCtx [str "prog", str "--foo=X"] none)
      (str "foo") none XO_ARGS_TYPE_STRING_ARRAY).2
     (xo_args_submit ctx).1 = false ∧
     Diag.errNoValue (str "--foo=X") ∈ (xo_args_submit ctx).2.out) := by
  exact ⟨fun args argv i a m1 m2 hf =>
      tryParse_matchIrrelevant args argv i a m1 m2 hf,
    tryParse_array_noValue, by decide, by decide⟩

/-- C9 witness: the universal parts of claim_C9 instantiated with the
assignment match against a string-array argument. -/
theorem claim_C9_witness :
    (_xo_args_try_parse_arg [fooStrArrFix] [str "p", str "--foo=X", str "a"]
       1 fooStrArrFix MatchType.mtAssignName =
     _xo_args_try_parse_arg [fooStrArrFix] [str "p", str "--foo=X", str "a"]
       1 fooStrArrFix MatchType.mtName) ∧
    (_xo_args_try_parse_arg [fooStrArrFix] [str "p", str "--foo=X"] 1
       fooStrArrFix MatchType.mtAssignName =
      ⟨false, fooStrArrFix, 0, [Diag.errNoValue (str "--foo=X")]⟩) := by
  constructor
  · exact claim_C9.1 [fooStrArrFix] [str "p", str "--foo=X", str "a"] 1
      fooStrArrFix MatchType.mtAssignName MatchType.mtName
      (Or.inl (Or.inl rfl))
  · exact claim_C9.2.1 [fooStrArrFix] [str "p", str "--foo=X"] 1
      fooStrArrFix MatchType.mtAssignName (Or.inl (Or.inl rfl)) (by decide)

end XoArgs
